import Mathlib

/-!
Shallow embedding of the gemini-app repository (a browser chat / image / video
UI over a generative-AI SDK) and proofs about its observable behaviour.

JavaScript strings are modelled as `List Char` (UTF-16 code units are
identified with characters; none of the verified properties depends on
surrogate pairs).  JavaScript truthiness of a string is "non-empty", of an
optional field "present and truthy".  Fallible code is modelled with
`Except` / `Option`; the single-threaded event loop is modelled by
deterministic sequential execution, with the outcome of a network stream
passed in as data.
-/

/-- JavaScript string, modelled as a list of UTF-16 code units. -/
abbrev JsStr := List Char

/-- Convert a Lean string literal to the embedded string type. -/
def jstr (s : String) : JsStr := s.toList

/-- Truthiness of an optional JS string: present and non-empty. -/
def truthyOpt (o : Option JsStr) : Bool :=
  match o with
  | none => false
  | some s => !s.isEmpty

/-- JS `String.prototype.trim` restricted to the common whitespace
characters (space, tab, newline, carriage return). -/
def jsTrim (s : JsStr) : JsStr :=
  let ws : Char → Bool := fun c => c = ' ' || c = '\t' || c = '\n' || c = '\r'
  ((s.dropWhile ws).reverse.dropWhile ws).reverse

/-! ## Chat data model (src/types.ts) -/

/-- One message of a chat transcript (`ChatMessage` in types.ts). -/
structure ChatMessage where
  role : JsStr
  content : JsStr
deriving DecidableEq, Repr

/-- The literal role strings used by the source. -/
def userRole : JsStr := jstr "user"

/-- The assistant role string used by the source. -/
def modelRole : JsStr := jstr "model"

/-- A persisted chat session (`ChatSession` in types.ts). -/
structure ChatSession where
  id : JsStr
  title : JsStr
  messages : List ChatMessage
  model : JsStr
deriving DecidableEq, Repr

/-! ## Chatbot.handleSubmit (src/unnamed/part_000 lines 170-220) -/

/-- Local state of the `Chatbot` component that `handleSubmit` reads and
writes: the displayed transcript, the input box, the loading flag, the error
banner, whether the chat handle is initialized, and the pro-model toggle. -/
structure ChatState where
  messages : List ChatMessage
  input : JsStr
  isLoading : Bool
  error : Option JsStr
  hasChat : Bool
  useProModel : Bool
deriving DecidableEq, Repr

/-- Outcome of `chat.sendMessageStream`: either the finite ordered sequence of
text fragments followed by normal completion, or some fragments followed by a
thrown transport failure with a message. -/
inductive StreamOutcome where
  | success (chunks : List JsStr)
  | failure (pendingChunks : List JsStr) (message : JsStr)
deriving DecidableEq, Repr

/-- Effect of a submission on the session store: nothing, update of the
existing session (`onUpdate`), or creation of a fresh one (`onNewSession`). -/
inductive SessionEffect where
  | noEffect
  | update (s : ChatSession)
  | create (s : ChatSession)
deriving DecidableEq, Repr

/-- One `setMessages` call from the streaming loop (lines 191-197): if the
last displayed message has the model role, its content is replaced by the
accumulated `fullResponse`; otherwise the transcript is left unchanged. -/
def applyChunk (prev : List ChatMessage) (fullResponse : JsStr) : List ChatMessage :=
  match prev.getLast? with
  | none => prev
  | some lastMessage =>
      if lastMessage.role = modelRole then
        prev.dropLast ++ [{ lastMessage with content := fullResponse }]
      else
        prev

/-- The `for await (const chunk of stream)` loop (lines 188-198): folds each
fragment into `fullResponse` by appending and pushes the accumulated text into
the displayed transcript.  Returns the final transcript and `fullResponse`. -/
def streamLoop : List ChatMessage → JsStr → List JsStr → List ChatMessage × JsStr
  | msgs, full, [] => (msgs, full)
  | msgs, full, chunk :: rest =>
      let full' := full ++ chunk
      streamLoop (applyChunk msgs full') full' rest

/-- Session title derivation (line 207):
`currentInput.substring(0, 30) + (currentInput.length > 30 ? '...' : '')`. -/
def mkTitle (currentInput : JsStr) : JsStr :=
  currentInput.take 30 ++ (if 30 < currentInput.length then jstr "..." else [])

/-- The function `Chatbot.handleSubmit` (lines 170-220) as a state transition.  The
re-entrancy guard is line 172.  The optimistic appends (user turn, then the
empty model turn scheduled by the 10 ms timeout) happen before any stream
fragment is processed; the stream outcome is passed in as data.  On success
the displayed transcript carries the streamed content and the session store
receives either an update of the existing session or a freshly created one
(id `Date.now().toString()` passed in as `newId`).  On failure the last two
messages are removed (`prev.slice(0, -2)`), the error message is stored, and
loading ends. -/
def handleSubmit (st : ChatState) (session : Option ChatSession) (newId : JsStr)
    (outcome : StreamOutcome) : ChatState × SessionEffect :=
  if jsTrim st.input = [] ∨ st.isLoading = true ∨ st.hasChat = false then
    (st, .noEffect)
  else
    let userMessage : ChatMessage := ⟨userRole, st.input⟩
    let newMessages := st.messages ++ [userMessage]
    let currentInput := st.input
    let withModel := newMessages ++ [⟨modelRole, []⟩]
    match outcome with
    | .success chunks =>
        let r := streamLoop withModel [] chunks
        let fullResponse := r.2
        let updatedMessages := newMessages ++ [⟨modelRole, fullResponse⟩]
        let eff :=
          match session with
          | some s => SessionEffect.update { s with messages := updatedMessages }
          | none =>
              SessionEffect.create
                ⟨newId, mkTitle currentInput, updatedMessages,
                 if st.useProModel then jstr "gemini-2.5-pro" else jstr "gemini-2.5-flash"⟩
        ({ st with messages := r.1, input := [], isLoading := false, error := none }, eff)
    | .failure pendingChunks msg =>
        let r := streamLoop withModel [] pendingChunks
        let rolled := r.1.take (r.1.length - 2)
        ({ st with messages := rolled, input := [], isLoading := false, error := some msg },
         .noEffect)

/-- Sample chat state used by the concrete witnesses below: empty transcript,
input "hi", not loading, no error, chat handle ready, flash model. -/
def sampleState : ChatState :=
  ⟨[], jstr "hi", false, none, true, false⟩

/-! ## Remote gateway: image generation and editing (src/unnamed/part_001) -/

/-- Result of a file upload or image operation (`ImageData` in types.ts). -/
structure ImageData where
  base64 : JsStr
  mimeType : JsStr
deriving DecidableEq, Repr

/-- A thrown JS error: either `new Error(message)` or a runtime `TypeError`
from reading a property of `undefined`. -/
inductive JsError where
  | message (msg : JsStr)
  | typeError
deriving DecidableEq, Repr

/-- The provider's "no image was produced in the response" message
(part_001 lines 42 and 57). -/
def noImageMsg : JsStr := jstr "هیچ تصویری در پاسخ تولید نشد."

/-- An inline-data blob inside a response part. -/
structure InlineData where
  data : JsStr
  mimeType : JsStr
deriving DecidableEq, Repr

/-- One part of a provider content response: optionally inline image data,
optionally text. -/
structure GenPart where
  inlineData : Option InlineData
  text : Option JsStr
deriving DecidableEq, Repr

/-- The `content` object of a response candidate. -/
structure GenContent where
  parts : Option (List GenPart)
deriving DecidableEq, Repr

/-- One candidate of a `generateContent` response. -/
structure GenCandidate where
  content : Option GenContent
deriving DecidableEq, Repr

/-- A `generateContent` provider response. -/
structure GenContentResponse where
  candidates : Option (List GenCandidate)
deriving DecidableEq, Repr

/-- The chain `response.candidates?.[0]?.content?.parts || []` (part_001 line 37). -/
def responseParts (r : GenContentResponse) : List GenPart :=
  ((((r.candidates.bind List.head?).bind GenCandidate.content).bind GenContent.parts).getD [])

/-- Function `editImageWithPrompt` (part_001 lines 24-43) applied to the provider
response: return the first part carrying inline data, else throw the
no-image-produced error. -/
def editImageWithPrompt (r : GenContentResponse) : Except JsError ImageData :=
  match (responseParts r).findSome? (fun p => p.inlineData) with
  | some d => .ok ⟨d.data, d.mimeType⟩
  | none => .error (.message noImageMsg)

/-- The `image` object of a generated image, with possibly-absent bytes. -/
structure GenImage where
  imageBytes : Option JsStr
deriving DecidableEq, Repr

/-- One entry of `response.generatedImages`. -/
structure GeneratedImage where
  image : Option GenImage
deriving DecidableEq, Repr

/-- A `generateImages` provider response. -/
structure GenImagesResponse where
  generatedImages : List GeneratedImage
deriving DecidableEq, Repr

/-- Function `generateImageWithPrompt` (part_001 lines 45-58) applied to the provider
response.  The source reads `response.generatedImages[0].image.imageBytes`
unguarded: an empty `generatedImages` list (or an absent `image` object)
raises a `TypeError`, not the no-image-produced error; only present-but-falsy
`imageBytes` reaches the guarded throw. -/
def generateImageWithPrompt (r : GenImagesResponse) : Except JsError ImageData :=
  match r.generatedImages.head? with
  | none => .error .typeError
  | some g =>
      match g.image with
      | none => .error .typeError
      | some im =>
          if truthyOpt im.imageBytes then .ok ⟨im.imageBytes.getD [], jstr "image/png"⟩
          else .error (.message noImageMsg)

/-! ## Remote gateway: web search (src/unnamed/part_001 lines 74-92) -/

/-- The `web` object of a grounding chunk. -/
structure WebInfo where
  uri : Option JsStr
  title : Option JsStr
deriving DecidableEq, Repr

/-- One grounding chunk of the search metadata. -/
structure GroundingChunk where
  web : Option WebInfo
deriving DecidableEq, Repr

/-- The grounding metadata of a search candidate. -/
structure GroundingMetadata where
  groundingChunks : Option (List GroundingChunk)
deriving DecidableEq, Repr

/-- One candidate of a grounded-search response. -/
structure GroundCandidate where
  groundingMetadata : Option GroundingMetadata
deriving DecidableEq, Repr

/-- A grounded-search provider response. -/
structure SearchResponse where
  candidates : Option (List GroundCandidate)
  text : JsStr
deriving DecidableEq, Repr

/-- A citation entry (`Source` in types.ts); the optional-chained fields may
be absent. -/
structure SourceRec where
  uri : Option JsStr
  title : Option JsStr
deriving DecidableEq, Repr

/-- The chain `response.candidates?.[0]?.groundingMetadata?.groundingChunks` with the
trailing `|| []`. -/
def groundingChunksOf (r : SearchResponse) : List GroundingChunk :=
  (((r.candidates.bind List.head?).bind GroundCandidate.groundingMetadata).bind
    GroundingMetadata.groundingChunks).getD []

/-- The mapping `{ uri: chunk.web?.uri, title: chunk.web?.title }` (lines 85-88). -/
def mkSource (c : GroundingChunk) : SourceRec :=
  ⟨c.web.bind WebInfo.uri, c.web.bind WebInfo.title⟩

/-- Function `searchWithGoogle` (lines 74-92) applied to the provider response: the
answer text plus the mapped citations filtered by `s.uri && s.title`. -/
def searchWithGoogle (r : SearchResponse) : JsStr × List SourceRec :=
  (r.text,
   ((groundingChunksOf r).map mkSource).filter
     (fun s => truthyOpt s.uri && truthyOpt s.title))

/-! ## Remote gateway: video animation polling (src/unnamed/part_001 lines 95-136) -/

/-- The `video` object with its download uri. -/
structure VideoRef where
  uri : Option JsStr
deriving DecidableEq, Repr

/-- One entry of `response.generatedVideos`. -/
structure GeneratedVideo where
  video : Option VideoRef
deriving DecidableEq, Repr

/-- The response payload of a finished video operation. -/
structure VideoOpResponse where
  generatedVideos : Option (List GeneratedVideo)
deriving DecidableEq, Repr

/-- A long-running video operation handle. -/
structure VideoOperation where
  done : Bool
  response : Option VideoOpResponse
deriving DecidableEq, Repr

/-- Outcome of one `ai.operations.getVideosOperation` poll: a new handle or a
thrown error message. -/
inductive PollResult where
  | ok (op : VideoOperation)
  | err (message : JsStr)
deriving DecidableEq, Repr

/-- The invalid-key message thrown on the special provider error (line 122). -/
def keyInvalidMsg : JsStr :=
  jstr "کلید API نامعتبر است. لطفاً دوباره انتخاب کنید و مجدداً تلاش نمایید."

/-- The special provider error substring checked on line 119. -/
def entityNotFoundMsg : JsStr := jstr "Requested entity was not found"

/-- The no-video-produced message (line 130). -/
def noVideoMsg : JsStr := jstr "ساخت ویدیو با شکست مواجه شد."

/-- JS `String.prototype.includes`: does `hay` contain `needle` as a
contiguous substring? -/
def includesSub : List Char → List Char → Bool
  | [], needle => needle.isEmpty
  | hay@(_ :: t), needle => needle.isPrefixOf hay || includesSub t needle

/-- Error translation of the poll `catch` block (lines 118-125): the
entity-not-found provider error is surfaced as the invalid-key message
(after forcing key re-selection), anything else is rethrown unchanged. -/
def pollErrMsg (m : JsStr) : JsStr :=
  if includesSub m entityNotFoundMsg then keyInvalidMsg else m

/-- The `while (!operation.done)` polling loop (lines 114-126): each
iteration sleeps 5000 ms and re-checks the handle.  The successive poll
outcomes are passed in as a finite list; the result is `none` when the list
is exhausted with the handle still pending (the loop itself has no retry
bound), otherwise the number of polls performed, the total milliseconds
slept, and the final handle or the translated thrown error. -/
def runPollLoop : VideoOperation → List PollResult →
    Option (Nat × Nat × Except JsStr VideoOperation)
  | op, [] => if op.done then some (0, 0, .ok op) else none
  | op, p :: rest =>
      if op.done then some (0, 0, .ok op)
      else
        match p with
        | .err m => some (1, 5000, .error (pollErrMsg m))
        | .ok op' =>
            (runPollLoop op' rest).map (fun t => (t.1 + 1, t.2.1 + 5000, t.2.2))

/-- The chain `operation.response?.generatedVideos?.[0]?.video?.uri` (line 128). -/
def downloadLinkOf (op : VideoOperation) : Option JsStr :=
  (((op.response.bind VideoOpResponse.generatedVideos).bind List.head?).bind
    GeneratedVideo.video).bind VideoRef.uri

/-- Lines 128-131: the finished operation yields its download link or throws
the no-video-produced error. -/
def videoResult (op : VideoOperation) : Except JsStr JsStr :=
  match downloadLinkOf op with
  | some uri => .ok uri
  | none => .error noVideoMsg

/-- A content response whose single candidate carries one text part and no
inline image data. -/
def sampleNoImageResponse : GenContentResponse :=
  ⟨some [⟨some ⟨some [⟨none, some (jstr "t")⟩]⟩⟩]⟩

/-- A content response whose parts are a text part followed by an inline
image part. -/
def sampleImageResponse : GenContentResponse :=
  ⟨some [⟨some ⟨some [⟨none, some (jstr "t")⟩,
                      ⟨some ⟨jstr "IMG", jstr "image/png"⟩, none⟩]⟩⟩]⟩

/-- The spec's own filtering example: citations `{uri: "a", title: ""}` and
`{uri: "b", title: "T"}`. -/
def sampleSearchResponse : SearchResponse :=
  ⟨some [⟨some ⟨some [⟨some ⟨some (jstr "a"), some (jstr "")⟩⟩,
                      ⟨some ⟨some (jstr "b"), some (jstr "T")⟩⟩]⟩⟩], jstr "answer"⟩

/-- A pending video operation handle. -/
def pendingOp : VideoOperation := ⟨false, none⟩

/-- A finished video operation handle whose download uri is "u". -/
def doneOp : VideoOperation := ⟨true, some ⟨some [⟨some ⟨some (jstr "u")⟩⟩]⟩⟩

/-! ## ImageUploader.handleFileChange (src/unnamed/part_000 lines 50-65) -/

/-- JS regex `\w`: ASCII letters, digits, underscore. -/
def isWordChar (c : Char) : Bool := c.isAlphanum || c = '_'

/-- JS regex `.` (no `s` flag): anything but a line terminator. -/
def isLineTerm (c : Char) : Bool :=
  c = '\n' || c = '\r' || c = Char.ofNat 0x2028 || c = Char.ofNat 0x2029

/-- Strip an exact literal from the front of a string, or fail. -/
def dropLit : List Char → List Char → Option (List Char)
  | [], s => some s
  | _ :: _, [] => none
  | p :: ps, c :: cs => if c = p then dropLit ps cs else none

/-- The regex match of line 56,
`base64String.match(/^data:(image\/\w+);base64,(.*)$/)`: on success the
captured groups (content type, base64 payload).  `\w+` necessarily captures
the maximal run of word characters (a shorter run would leave a word
character where `;` must match), and `(.*)$` requires the payload to be free
of line terminators. -/
def matchImageDataUrl (s : JsStr) : Option (JsStr × JsStr) :=
  match dropLit (jstr "data:image/") s with
  | none => none
  | some r1 =>
      let w := r1.takeWhile isWordChar
      if w = [] then none
      else
        match dropLit (jstr ";base64,") (r1.dropWhile isWordChar) with
        | none => none
        | some rest =>
            if rest.all (fun c => !isLineTerm c) then some (jstr "image/" ++ w, rest)
            else none

/-- Handler `ImageUploader.handleFileChange` (lines 50-65) applied to the data URL
produced by `FileReader.readAsDataURL`: a payload is produced when the regex
matches and both captures are truthy, otherwise the malformed-upload alert
fires and no payload is created. -/
def handleFileChange (dataUrl : JsStr) : Option ImageData :=
  match matchImageDataUrl dataUrl with
  | none => none
  | some (mimeType, base64Data) =>
      if !base64Data.isEmpty && !mimeType.isEmpty then some ⟨base64Data, mimeType⟩
      else none

/-- The `accept` attribute of the file input (line 83).  It only filters the
browser's file picker; `handleFileChange` never consults it. -/
def acceptAttr : List JsStr := [jstr "image/png", jstr "image/jpeg", jstr "image/webp"]

/-! ## App chat-history load effect (src/unnamed/part_000 lines 859-882) -/

/-- A persisted turn as found in storage: role and content may be missing or
arbitrary. -/
structure RawMsg where
  role : Option JsStr
  content : Option JsStr
deriving DecidableEq, Repr

/-- Lines 871-874, per turn: `content: msg.content || ''` and
`role: msg.role === 'user' || msg.role === 'model' ? msg.role : 'user'`. -/
def sanitizeMsg (m : RawMsg) : ChatMessage :=
  ⟨if m.role = some userRole ∨ m.role = some modelRole then m.role.getD userRole
    else userRole,
   m.content.getD []⟩

/-- The turn-list validation of the load effect: sanitize each turn, then
`.filter((msg) => msg.content)` drops empty content. -/
def loadMessages (raw : List RawMsg) : List ChatMessage :=
  (raw.map sanitizeMsg).filter (fun m => !m.content.isEmpty)

/-- A persisted session whose `messages` field may fail `Array.isArray`
(modelled as `none`). -/
structure RawSession where
  id : JsStr
  title : JsStr
  model : JsStr
  messages : Option (List RawMsg)
deriving DecidableEq, Repr

/-- Lines 866-875, per session: keep the scalar fields and validate the turn
list, replacing a non-array `messages` with `[]`. -/
def loadSession (s : RawSession) : ChatSession :=
  ⟨s.id, s.title,
   match s.messages with
   | some ms => loadMessages ms
   | none => [],
   s.model⟩

/-! ## usePersistentState (src/unnamed/part_000 lines 11-31) -/

/-- JSON escape of one character as produced by `JSON.stringify` (the common
escapes; other control characters are modelled as passed through). -/
def escChar (c : Char) : List Char :=
  if c = '"' then ['\\', '"']
  else if c = '\\' then ['\\', '\\']
  else if c = '\n' then ['\\', 'n']
  else if c = '\t' then ['\\', 't']
  else if c = '\r' then ['\\', 'r']
  else [c]

/-- JSON escape of a whole string body. -/
def escapeStr : List Char → List Char
  | [] => []
  | c :: cs => escChar c ++ escapeStr cs

/-- The result of `JSON.stringify` on a string value: quoted, escaped body. -/
def jsonStringifyStr (s : JsStr) : JsStr := '"' :: (escapeStr s ++ ['"'])

/-- JSON unescape of one escaped character as accepted by `JSON.parse`. -/
def unescChar (c : Char) : Option Char :=
  if c = '"' then some '"'
  else if c = '\\' then some '\\'
  else if c = '/' then some '/'
  else if c = 'n' then some '\n'
  else if c = 't' then some '\t'
  else if c = 'r' then some '\r'
  else if c = 'b' then some (Char.ofNat 8)
  else if c = 'f' then some (Char.ofNat 12)
  else none

/-- Scan a JSON string body up to its closing quote, returning the decoded
content and the remainder after the quote. -/
def scanStr : List Char → Option (List Char × List Char)
  | [] => none
  | c :: cs =>
      if c = '"' then some ([], cs)
      else if c = '\\' then
        match cs with
        | [] => none
        | e :: cs' =>
            match unescChar e with
            | none => none
            | some d =>
                match scanStr cs' with
                | none => none
                | some (content, rest) => some (d :: content, rest)
      else
        match scanStr cs with
        | none => none
        | some (content, rest) => some (c :: content, rest)

/-- Behaviour of `JSON.parse` restricted to string values (every `usePersistentState` call
site in the source persists a string): succeeds exactly on a complete quoted
string, else throws (modelled as `none`). -/
def jsonParseStr (s : JsStr) : Option JsStr :=
  match s with
  | '"' :: rest =>
      match scanStr rest with
      | some (content, []) => some content
      | _ => none
  | _ => none

/-- The browser `localStorage`, modelled as an association list with the most recent
write first (so `setItem` shadows older entries, as overwriting does). -/
abbrev Store := List (JsStr × JsStr)

/-- The read `localStorage.getItem(key)`: the most recently stored value, if any. -/
def getItem (store : Store) (key : JsStr) : Option JsStr := store.lookup key

/-- The write `localStorage.setItem(key, value)`. -/
def setItem (store : Store) (key value : JsStr) : Store := (key, value) :: store

/-- The write-through effect of `usePersistentState` (lines 22-28):
`localStorage.setItem(key, JSON.stringify(state))`. -/
def persistWrite (store : Store) (key state : JsStr) : Store :=
  setItem store key (jsonStringifyStr state)

/-- The initializer of `usePersistentState` (lines 12-20):
`storedValue ? JSON.parse(storedValue) : defaultValue`, with a thrown parse
error caught and replaced by the default. -/
def persistInit (store : Store) (key defaultValue : JsStr) : JsStr :=
  match getItem store key with
  | none => defaultValue
  | some stored =>
      if stored.isEmpty then defaultValue
      else
        match jsonParseStr stored with
        | some v => v
        | none => defaultValue

/-- A persisted history with a "system"-role turn and an empty-content turn,
as in the spec's tolerance example. -/
def sampleRawHistory : List RawMsg :=
  [⟨some (jstr "system"), some (jstr "x")⟩, ⟨some userRole, some []⟩]

/-! ## Theorems -/

/-! ### Lemmas about the streaming loop -/

/-- Folding the stream over a transcript whose last entry is a model turn with
content equal to the current accumulator keeps that shape: the prefix is
untouched and the model turn's content tracks the accumulator. -/
theorem streamLoop_model_last (chunks : List JsStr) :
    ∀ (m : List ChatMessage) (full : JsStr),
      streamLoop (m ++ [⟨modelRole, full⟩]) full chunks =
        (m ++ [⟨modelRole, chunks.foldl (· ++ ·) full⟩], chunks.foldl (· ++ ·) full) := by
  induction chunks with
  | nil => intro m full; simp [streamLoop]
  | cons c rest ih =>
      intro m full
      have happly :
          applyChunk (m ++ [⟨modelRole, full⟩]) (full ++ c) =
            m ++ [⟨modelRole, full ++ c⟩] := by
        simp [applyChunk, List.getLast?_append, List.dropLast_concat]
      simp only [streamLoop, happly, ih]
      simp

/-- Accumulating `foldl (· ++ ·)` from an arbitrary seed is the seed followed
by the flattened list. -/
theorem foldl_append_eq_flatten (l : List JsStr) :
    ∀ (a : JsStr), l.foldl (· ++ ·) a = a ++ l.flatten := by
  induction l with
  | nil => intro a; simp
  | cons x xs ih => intro a; simp [List.foldl_cons, ih]

/-- One step of the display update never changes the length of the
transcript. -/
theorem applyChunk_length (msgs : List ChatMessage) (full : JsStr) :
    (applyChunk msgs full).length = msgs.length := by
  unfold applyChunk
  match h : msgs.getLast? with
  | none => simp
  | some lastMessage =>
      have hne : msgs ≠ [] := by
        intro hnil; rw [hnil] at h; simp at h
      by_cases hrole : lastMessage.role = modelRole
      · have hlen : 0 < msgs.length := List.length_pos.mpr hne
        simp only [hrole, if_true, List.length_append, List.length_dropLast,
          List.length_cons, List.length_nil]
        omega
      · simp [hrole]

/-- One step of the display update never changes any entry except the last. -/
theorem applyChunk_dropLast (msgs : List ChatMessage) (full : JsStr) :
    (applyChunk msgs full).dropLast = msgs.dropLast := by
  unfold applyChunk
  match h : msgs.getLast? with
  | none => simp
  | some lastMessage =>
      by_cases hrole : lastMessage.role = modelRole
      · simp [hrole, List.dropLast_concat]
      · simp [hrole]

/-- The streaming loop never changes the length of the transcript. -/
theorem streamLoop_length (chunks : List JsStr) :
    ∀ (msgs : List ChatMessage) (full : JsStr),
      (streamLoop msgs full chunks).1.length = msgs.length := by
  induction chunks with
  | nil => intro msgs full; simp [streamLoop]
  | cons c rest ih =>
      intro msgs full
      simp only [streamLoop, ih, applyChunk_length]

/-- The streaming loop never changes any transcript entry except the last. -/
theorem streamLoop_dropLast (chunks : List JsStr) :
    ∀ (msgs : List ChatMessage) (full : JsStr),
      (streamLoop msgs full chunks).1.dropLast = msgs.dropLast := by
  induction chunks with
  | nil => intro msgs full; simp [streamLoop]
  | cons c rest ih =>
      intro msgs full
      simp only [streamLoop, ih, applyChunk_dropLast]

/-- Rolling the streamed transcript back by two entries (`prev.slice(0, -2)`)
recovers exactly the pre-submission transcript, because the streaming loop
only ever rewrites the final entry. -/
theorem streamLoop_rollback (S : List ChatMessage) (u m : ChatMessage)
    (ch : List JsStr) (full : JsStr) :
    ((streamLoop (S ++ [u, m]) full ch).1).take
        ((streamLoop (S ++ [u, m]) full ch).1.length - 2) = S := by
  have hsplit : S ++ [u, m] = (S ++ [u]) ++ [m] := by simp
  have hlen : (streamLoop (S ++ [u, m]) full ch).1.length = S.length + 2 := by
    rw [streamLoop_length]; simp
  have hdl : (streamLoop (S ++ [u, m]) full ch).1.dropLast = S ++ [u] := by
    rw [streamLoop_dropLast, hsplit, List.dropLast_concat]
  set L := (streamLoop (S ++ [u, m]) full ch).1 with hLdef
  have h30 : L.length - 2 = S.length := by omega
  have hmin : min S.length (L.length - 1) = S.length := by omega
  have hvia : L.take S.length = L.dropLast.take S.length := by
    rw [List.dropLast_eq_take, List.take_take, hmin]
  rw [h30, hvia, hdl, List.take_append_of_le_length (le_refl _), List.take_length]

/-- C1: for every finite sequence of streamed text fragments delivered in
order during a chat submission, the assistant turn's content after stream
completion equals their concatenation — each fragment exactly once, appended
in arrival order, no reordering, duplication, or loss. -/
theorem claimC1_stream_concatenation
    (st : ChatState) (session : Option ChatSession) (newId : JsStr)
    (chunks : List JsStr)
    (h1 : jsTrim st.input ≠ []) (h2 : st.isLoading = false) (h3 : st.hasChat = true) :
    (handleSubmit st session newId (.success chunks)).1.messages =
      st.messages ++ [⟨userRole, st.input⟩, ⟨modelRole, chunks.flatten⟩] := by
  have hs := streamLoop_model_last chunks (st.messages ++ [⟨userRole, st.input⟩]) []
  have hf := foldl_append_eq_flatten chunks []
  simp only [List.nil_append] at hf
  simp only [List.append_assoc, List.singleton_append] at hs
  simp [handleSubmit, h1, h2, h3, hs, hf]

/-- Concrete instance of C1: submitting "hi" with fragments "ab", "c" leaves
the transcript ending in an assistant turn whose content is "abc". -/
theorem claimC1_stream_concatenation_witness :
    (handleSubmit sampleState none (jstr "1") (.success [jstr "ab", jstr "c"])).1.messages =
      sampleState.messages ++
        [⟨userRole, sampleState.input⟩, ⟨modelRole, ([jstr "ab", jstr "c"]).flatten⟩] :=
  claimC1_stream_concatenation sampleState none (jstr "1") [jstr "ab", jstr "c"]
    (by decide) rfl rfl

/-- C2: when the stream raises a transport failure (after any number of
delivered fragments), the rollback `prev.slice(0, -2)` removes exactly the
optimistic user turn and the empty assistant turn: the visible transcript
equals the pre-submission transcript, the failure message is retained, and
loading ends with no session-store effect. -/
theorem claimC2_failure_rollback
    (st : ChatState) (session : Option ChatSession) (newId : JsStr)
    (pendingChunks : List JsStr) (msg : JsStr)
    (h1 : jsTrim st.input ≠ []) (h2 : st.isLoading = false) (h3 : st.hasChat = true) :
    (handleSubmit st session newId (.failure pendingChunks msg)).1.messages = st.messages ∧
    (handleSubmit st session newId (.failure pendingChunks msg)).1.error = some msg ∧
    (handleSubmit st session newId (.failure pendingChunks msg)).1.isLoading = false ∧
    (handleSubmit st session newId (.failure pendingChunks msg)).2 = .noEffect := by
  refine ⟨?_, ?_, ?_, ?_⟩ <;>
    simp [handleSubmit, h1, h2, h3, streamLoop_rollback]

/-- Concrete instance of C2: a failure after one delivered fragment restores
the one-message transcript `[⟨user, "s"⟩]` exactly and retains the message. -/
theorem claimC2_failure_rollback_witness :
    (handleSubmit ⟨[⟨userRole, jstr "s"⟩], jstr "hi", false, none, true, false⟩ none
        (jstr "1") (.failure [jstr "ab"] (jstr "boom"))).1.messages
        = [⟨userRole, jstr "s"⟩] ∧
    (handleSubmit ⟨[⟨userRole, jstr "s"⟩], jstr "hi", false, none, true, false⟩ none
        (jstr "1") (.failure [jstr "ab"] (jstr "boom"))).1.error = some (jstr "boom") ∧
    (handleSubmit ⟨[⟨userRole, jstr "s"⟩], jstr "hi", false, none, true, false⟩ none
        (jstr "1") (.failure [jstr "ab"] (jstr "boom"))).1.isLoading = false ∧
    (handleSubmit ⟨[⟨userRole, jstr "s"⟩], jstr "hi", false, none, true, false⟩ none
        (jstr "1") (.failure [jstr "ab"] (jstr "boom"))).2 = .noEffect :=
  claimC2_failure_rollback ⟨[⟨userRole, jstr "s"⟩], jstr "hi", false, none, true, false⟩
    none (jstr "1") [jstr "ab"] (jstr "boom") (by decide) rfl rfl

/-- C5: a submission that starts a fresh conversation (no active session)
creates a session whose title is the input itself when its length is at most
30, and the first 30 characters followed by "..." when it exceeds 30. -/
theorem claimC5_session_title
    (st : ChatState) (newId : JsStr) (chunks : List JsStr)
    (h1 : jsTrim st.input ≠ []) (h2 : st.isLoading = false) (h3 : st.hasChat = true) :
    (handleSubmit st none newId (.success chunks)).2 =
      SessionEffect.create
        ⟨newId,
         if st.input.length ≤ 30 then st.input else st.input.take 30 ++ jstr "...",
         st.messages ++ [⟨userRole, st.input⟩, ⟨modelRole, chunks.flatten⟩],
         if st.useProModel then jstr "gemini-2.5-pro" else jstr "gemini-2.5-flash"⟩ := by
  have hs := streamLoop_model_last chunks (st.messages ++ [⟨userRole, st.input⟩]) []
  have hf := foldl_append_eq_flatten chunks []
  simp only [List.nil_append] at hf
  simp only [List.append_assoc, List.singleton_append] at hs
  have htitle : mkTitle st.input =
      (if st.input.length ≤ 30 then st.input else st.input.take 30 ++ jstr "...") := by
    by_cases hle : st.input.length ≤ 30
    · simp [mkTitle, hle, Nat.not_lt.mpr hle, List.take_of_length_le hle]
    · simp [mkTitle, hle, Nat.lt_of_not_le hle]
  simp [handleSubmit, h1, h2, h3, hs, hf, htitle]

/-- Concrete instance of C5: a 31-character input yields a title of its first
30 characters followed by "...". -/
theorem claimC5_session_title_witness :
    (handleSubmit ⟨[], jstr "abcdefghijklmnopqrstuvwxyz01234", false, none, true, false⟩
        none (jstr "1") (.success [jstr "ok"])).2 =
      SessionEffect.create
        ⟨jstr "1",
         if (jstr "abcdefghijklmnopqrstuvwxyz01234").length ≤ 30 then
           jstr "abcdefghijklmnopqrstuvwxyz01234"
         else (jstr "abcdefghijklmnopqrstuvwxyz01234").take 30 ++ jstr "...",
         [] ++ [⟨userRole, jstr "abcdefghijklmnopqrstuvwxyz01234"⟩,
           ⟨modelRole, ([jstr "ok"]).flatten⟩],
         if false then jstr "gemini-2.5-pro" else jstr "gemini-2.5-flash"⟩ :=
  claimC5_session_title
    ⟨[], jstr "abcdefghijklmnopqrstuvwxyz01234", false, none, true, false⟩
    (jstr "1") [jstr "ok"] (by decide) rfl rfl

/-- C10: a submission attempted while the controller is already streaming
(`isLoading` true) is a no-op — the guard on line 172 returns before any
state change, so the transcript and the session store are untouched. -/
theorem claimC10_streaming_submission_noop
    (st : ChatState) (session : Option ChatSession) (newId : JsStr)
    (outcome : StreamOutcome) (h : st.isLoading = true) :
    (handleSubmit st session newId outcome).1 = st ∧
    (handleSubmit st session newId outcome).2 = .noEffect := by
  constructor <;> simp [handleSubmit, h]

/-- Concrete instance of C10: a submission while loading leaves the state
exactly as it was. -/
theorem claimC10_streaming_submission_noop_witness :
    (handleSubmit ⟨[⟨userRole, jstr "s"⟩], jstr "hi", true, none, true, false⟩ none
        (jstr "1") (.success [jstr "x"])).1 =
      ⟨[⟨userRole, jstr "s"⟩], jstr "hi", true, none, true, false⟩ ∧
    (handleSubmit ⟨[⟨userRole, jstr "s"⟩], jstr "hi", true, none, true, false⟩ none
        (jstr "1") (.success [jstr "x"])).2 = .noEffect :=
  claimC10_streaming_submission_noop
    ⟨[⟨userRole, jstr "s"⟩], jstr "hi", true, none, true, false⟩ none
    (jstr "1") (.success [jstr "x"]) rfl

/-- C3 counterexample: on a provider response with no generated image entry
at all, `generateImageWithPrompt` raises a `TypeError` from the unguarded
`response.generatedImages[0].image.imageBytes` access, not the
no-image-produced failure the claim states. -/
theorem claimC3_counterexample :
    generateImageWithPrompt ⟨[]⟩ = .error .typeError ∧
    (Except.error JsError.typeError : Except JsError ImageData) ≠
      Except.error (JsError.message noImageMsg) := by
  refine ⟨rfl, ?_⟩
  intro h
  exact JsError.noConfusion (Except.error.inj h)

/-- C3 (amended): `editImageWithPrompt` returns the first inline-image part
and fails with the no-image-produced message when no part carries one;
`generateImageWithPrompt` returns the first generated image's bytes when they
are present and non-empty, fails with the no-image-produced message when the
first entry's bytes are absent or empty, and raises a generic `TypeError`
(not the no-image-produced failure) when the response has no generated image
entry at all. -/
theorem claimC3_image_errors :
    (∀ r : GenContentResponse, (∀ p ∈ responseParts r, p.inlineData = none) →
        editImageWithPrompt r = .error (.message noImageMsg)) ∧
    (∀ (r : GenContentResponse) (d : InlineData),
        (responseParts r).findSome? (fun p => p.inlineData) = some d →
        editImageWithPrompt r = .ok ⟨d.data, d.mimeType⟩) ∧
    (∀ (g : GeneratedImage) (rest : List GeneratedImage) (im : GenImage) (bytes : JsStr),
        g.image = some im → im.imageBytes = some bytes → bytes ≠ [] →
        generateImageWithPrompt ⟨g :: rest⟩ = .ok ⟨bytes, jstr "image/png"⟩) ∧
    (∀ (g : GeneratedImage) (rest : List GeneratedImage) (im : GenImage),
        g.image = some im → truthyOpt im.imageBytes = false →
        generateImageWithPrompt ⟨g :: rest⟩ = .error (.message noImageMsg)) ∧
    generateImageWithPrompt ⟨[]⟩ = .error .typeError := by
  refine ⟨?_, ?_, ?_, ?_, rfl⟩
  · intro r h
    have hn : (responseParts r).findSome? (fun p => p.inlineData) = none := by
      rw [List.findSome?_eq_none_iff]
      exact h
    simp [editImageWithPrompt, hn]
  · intro r d h
    simp [editImageWithPrompt, h]
  · intro g rest im bytes hg hb hne
    simp [generateImageWithPrompt, hg, hb, truthyOpt, hne]
  · intro g rest im hg hf
    simp [generateImageWithPrompt, hg, hf]

/-- Concrete instances of the amended C3: a text-only response fails with the
no-image message, an inline-image response returns that image, and the two
`generateImages` paths behave as amended. -/
theorem claimC3_image_errors_witness :
    editImageWithPrompt sampleNoImageResponse = .error (.message noImageMsg) ∧
    editImageWithPrompt sampleImageResponse = .ok ⟨jstr "IMG", jstr "image/png"⟩ ∧
    generateImageWithPrompt ⟨[⟨some ⟨some (jstr "B")⟩⟩]⟩ = .ok ⟨jstr "B", jstr "image/png"⟩ ∧
    generateImageWithPrompt ⟨[⟨some ⟨some []⟩⟩]⟩ = .error (.message noImageMsg) :=
  ⟨claimC3_image_errors.1 sampleNoImageResponse (by decide),
   claimC3_image_errors.2.1 sampleImageResponse ⟨jstr "IMG", jstr "image/png"⟩ (by decide),
   claimC3_image_errors.2.2.1 ⟨some ⟨some (jstr "B")⟩⟩ [] ⟨some (jstr "B")⟩ (jstr "B")
     rfl rfl (by decide),
   claimC3_image_errors.2.2.2.1 ⟨some ⟨some []⟩⟩ [] ⟨some []⟩ rfl rfl⟩

/-- C8: the returned citation list is exactly the provider entries whose uri
and title are both present and non-empty (JS truthiness), in their original
order; in particular the spec's example keeps only `{uri: "b", title: "T"}`. -/
theorem claimC8_citation_filtering :
    (∀ r : SearchResponse,
        (searchWithGoogle r).2 =
          ((groundingChunksOf r).filter
            (fun c => truthyOpt (mkSource c).uri && truthyOpt (mkSource c).title)).map
              mkSource) ∧
    (searchWithGoogle sampleSearchResponse).2 =
      [⟨some (jstr "b"), some (jstr "T")⟩] := by
  constructor
  · intro r
    simp only [searchWithGoogle, List.filter_map]
    rfl
  · decide

/-- C9: a handle that reports not-done twice and then done completes after
exactly 2 poll attempts, 5000 ms of sleep before each (10000 ms total), and
yields the finished handle's download link; and the loop itself never stops
while the handle is still pending. -/
theorem claimC9_poll_until_done
    (op0 op1 op2 : VideoOperation) (uri : JsStr)
    (h0 : op0.done = false) (h1 : op1.done = false) (h2 : op2.done = true)
    (hu : downloadLinkOf op2 = some uri) :
    runPollLoop op0 [.ok op1, .ok op2] = some (2, 10000, .ok op2) ∧
    videoResult op2 = .ok uri ∧
    (∀ op : VideoOperation, op.done = false → runPollLoop op [] = none) := by
  refine ⟨?_, ?_, ?_⟩
  · simp [runPollLoop, h0, h1, h2]
  · simp [videoResult, hu]
  · intro op h
    simp [runPollLoop, h]

/-- Concrete instance of C9: two pending reports then a finished handle give
exactly 2 polls, 10 seconds of waiting, and the download link "u". -/
theorem claimC9_poll_until_done_witness :
    runPollLoop pendingOp [.ok pendingOp, .ok doneOp] = some (2, 10000, .ok doneOp) ∧
    videoResult doneOp = .ok (jstr "u") :=
  ⟨(claimC9_poll_until_done pendingOp pendingOp doneOp (jstr "u") rfl rfl rfl rfl).1,
   (claimC9_poll_until_done pendingOp pendingOp doneOp (jstr "u") rfl rfl rfl rfl).2.1⟩

/-! ### Lemmas for the upload regex, history load and persistence -/

/-- Stripping a literal from itself followed by anything succeeds with the
remainder. -/
theorem dropLit_self (lit : List Char) :
    ∀ rest, dropLit lit (lit ++ rest) = some rest := by
  induction lit with
  | nil => intro rest; rfl
  | cons c cs ih => intro rest; simp [dropLit, ih]

/-- Lists `takeWhile` / `dropWhile` split at the first character failing the
predicate. -/
theorem takeWhile_split (p : Char → Bool) :
    ∀ (w : List Char) (x : Char) (rest : List Char),
      (∀ c ∈ w, p c = true) → p x = false →
      (w ++ x :: rest).takeWhile p = w ∧ (w ++ x :: rest).dropWhile p = x :: rest := by
  intro w
  induction w with
  | nil =>
      intro x rest _ hx
      simp [List.takeWhile_cons, List.dropWhile_cons, hx]
  | cons a as ih =>
      intro x rest hall hx
      have ha : p a = true := hall a (List.mem_cons_self a as)
      have ih' := ih x rest (fun c hc => hall c (List.mem_cons_of_mem _ hc)) hx
      simp [List.takeWhile_cons, List.dropWhile_cons, ha, ih'.1, ih'.2]

/-- The regex accepts exactly the data-URL shape it is written for: an
`image/` content type of word characters followed by a base64 payload. -/
theorem matchImageDataUrl_build (w data : JsStr) (hw : w ≠ [])
    (hall : ∀ c ∈ w, isWordChar c = true) (hlt : ∀ c ∈ data, isLineTerm c = false) :
    matchImageDataUrl (jstr "data:image/" ++ w ++ jstr ";base64," ++ data) =
      some (jstr "image/" ++ w, data) := by
  have hlit : jstr ";base64," = ';' :: jstr "base64," := by decide
  have hwx : isWordChar ';' = false := by decide
  have hshape : jstr "data:image/" ++ w ++ jstr ";base64," ++ data =
      jstr "data:image/" ++ (w ++ (';' :: (jstr "base64," ++ data))) := by
    rw [hlit]; simp [List.append_assoc]
  have htw := takeWhile_split isWordChar w ';' (jstr "base64," ++ data) hall hwx
  have hall2 : data.all (fun c => !isLineTerm c) = true := by
    rw [List.all_eq_true]
    intro c hc
    simp [hlt c hc]
  rw [hshape]
  unfold matchImageDataUrl
  rw [dropLit_self]
  simp only [htw.1, htw.2]
  rw [if_neg (by simpa using hw)]
  rw [show (';' : Char) :: (jstr "base64," ++ data) = jstr ";base64," ++ data by
    rw [hlit]; rfl]
  rw [dropLit_self]
  simp [hall2]

/-- C4 counterexample: a `image/gif` data URL — a type outside the PNG, JPEG,
WEBP allow-list — still produces a payload, because the handler's regex
accepts any `image/<word-characters>` content type; the allow-list only sits
in the file input's `accept` attribute. -/
theorem claimC4_counterexample :
    handleFileChange (jstr "data:image/gif;base64,AAAA") =
      some ⟨jstr "AAAA", jstr "image/gif"⟩ ∧
    jstr "image/gif" ∉ acceptAttr := by
  constructor
  · decide
  · decide

/-- C4 (amended): the handler produces a payload exactly when the data URL
matches `data:image/<word-chars>;base64,<payload>` with a non-empty payload
(any `image/*` subtype of word characters, not only the PNG/JPEG/WEBP
allow-list, which only filters the browser's file picker). -/
theorem claimC4_upload_accept :
    (∀ (w data : JsStr),
        w ≠ [] → (∀ c ∈ w, isWordChar c = true) → data ≠ [] →
        (∀ c ∈ data, isLineTerm c = false) →
        handleFileChange (jstr "data:image/" ++ w ++ jstr ";base64," ++ data) =
          some ⟨data, jstr "image/" ++ w⟩) ∧
    (∀ s : JsStr, matchImageDataUrl s = none → handleFileChange s = none) ∧
    (∀ (s mime : JsStr), matchImageDataUrl s = some (mime, []) →
        handleFileChange s = none) := by
  refine ⟨?_, ?_, ?_⟩
  · intro w data hw hall hd hlt
    unfold handleFileChange
    rw [matchImageDataUrl_build w data hw hall hlt]
    have hm : jstr "image/" ++ w = 'i' :: (jstr "mage/" ++ w) := by
      rw [show jstr "image/" = 'i' :: jstr "mage/" by decide]; rfl
    simp [hm, List.isEmpty_iff, hd]
  · intro s h
    simp [handleFileChange, h]
  · intro s mime h
    simp [handleFileChange, h]

/-- Concrete instance of the amended C4: a PNG data URL is accepted with its
payload and content type. -/
theorem claimC4_upload_accept_witness :
    handleFileChange (jstr "data:image/" ++ jstr "png" ++ jstr ";base64," ++ jstr "AA") =
      some ⟨jstr "AA", jstr "image/" ++ jstr "png"⟩ :=
  claimC4_upload_accept.1 (jstr "png") (jstr "AA")
    (by decide) (by decide) (by decide) (by decide)

/-- C6: loading persisted turns keeps exactly the turns with non-empty
content (in order, sanitized), every loaded turn's role is `user` or `model`,
any unrecognized role is coerced to `user`, and an empty-content turn never
appears in the loaded transcript.  `loadMessages` is a total function: no
input raises. -/
theorem claimC6_history_sanitization :
    (∀ raw : List RawMsg,
        loadMessages raw =
          (raw.filter (fun m => !(m.content.getD []).isEmpty)).map sanitizeMsg) ∧
    (∀ (raw : List RawMsg) (m : ChatMessage), m ∈ loadMessages raw →
        (m.role = userRole ∨ m.role = modelRole) ∧ m.content ≠ []) ∧
    (∀ (r c : Option JsStr), r ≠ some userRole → r ≠ some modelRole →
        sanitizeMsg ⟨r, c⟩ = ⟨userRole, c.getD []⟩) ∧
    (∀ (raw : List RawMsg) (m : RawMsg), m.content.getD [] = [] →
        sanitizeMsg m ∉ loadMessages raw) := by
  refine ⟨?_, ?_, ?_, ?_⟩
  · intro raw
    rw [loadMessages, List.filter_map]
    rfl
  · intro raw m hm
    rw [loadMessages, List.mem_filter] at hm
    obtain ⟨hmem, hpred⟩ := hm
    obtain ⟨x, hx, hxe⟩ := List.mem_map.mp hmem
    constructor
    · subst hxe
      by_cases h : x.role = some userRole ∨ x.role = some modelRole
      · rcases h with h | h <;> simp [sanitizeMsg, h]
      · simp [sanitizeMsg, h]
    · intro hnil
      rw [hnil] at hpred
      simp at hpred
  · intro r c h1 h2
    simp [sanitizeMsg, h1, h2]
  · intro raw m hc hmem
    rw [loadMessages, List.mem_filter] at hmem
    have := hmem.2
    simp [sanitizeMsg, hc] at this

/-- Concrete instance of C6: a "system"-role turn is coerced to a user turn,
and an empty-content turn is absent from the loaded transcript. -/
theorem claimC6_history_sanitization_witness :
    sanitizeMsg ⟨some (jstr "system"), some (jstr "x")⟩ = ⟨userRole, jstr "x"⟩ ∧
    sanitizeMsg ⟨some userRole, some []⟩ ∉ loadMessages sampleRawHistory :=
  ⟨claimC6_history_sanitization.2.2.1 (some (jstr "system")) (some (jstr "x"))
      (by decide) (by decide),
   claimC6_history_sanitization.2.2.2 sampleRawHistory ⟨some userRole, some []⟩ rfl⟩

/-- Decoding an escaped string body terminated by the closing quote recovers
the original content and leaves the remainder untouched. -/
theorem scanStr_escape :
    ∀ (v tail : List Char), scanStr (escapeStr v ++ '"' :: tail) = some (v, tail) := by
  intro v
  induction v with
  | nil =>
      intro tail
      simp only [escapeStr, List.nil_append]
      unfold scanStr
      simp
  | cons c cs ih =>
      intro tail
      simp only [escapeStr, List.append_assoc]
      by_cases h1 : c = '"'
      · subst h1
        rw [show escChar '"' = ['\\', '"'] from by decide]
        simp only [List.cons_append, List.nil_append]
        unfold scanStr
        simp [unescChar, ih]
      · by_cases h2 : c = '\\'
        · subst h2
          rw [show escChar '\\' = ['\\', '\\'] from by decide]
          simp only [List.cons_append, List.nil_append]
          unfold scanStr
          simp [unescChar, ih]
        · by_cases h3 : c = '\n'
          · subst h3
            rw [show escChar '\n' = ['\\', 'n'] from by decide]
            simp only [List.cons_append, List.nil_append]
            unfold scanStr
            simp [unescChar, ih]
          · by_cases h4 : c = '\t'
            · subst h4
              rw [show escChar '\t' = ['\\', 't'] from by decide]
              simp only [List.cons_append, List.nil_append]
              unfold scanStr
              simp [unescChar, ih]
            · by_cases h5 : c = '\r'
              · subst h5
                rw [show escChar '\r' = ['\\', 'r'] from by decide]
                simp only [List.cons_append, List.nil_append]
                unfold scanStr
                simp [unescChar, ih]
              · rw [show escChar c = [c] from by simp [escChar, h1, h2, h3, h4, h5]]
                simp only [List.cons_append, List.nil_append]
                unfold scanStr
                simp [h1, h2, ih]

/-- Parsing inverts stringification on every string value. -/
theorem jsonParse_stringify (v : JsStr) : jsonParseStr (jsonStringifyStr v) = some v := by
  have h := scanStr_escape v []
  simp [jsonStringifyStr, jsonParseStr, h]

/-- C7: writing a value through the hook and re-initializing from storage
yields the value back; initializing from a store where the key is absent, or
where the stored content fails to parse, yields the supplied default (and
`persistInit` is total: no input raises). -/
theorem claimC7_persistence_roundtrip :
    (∀ (store : Store) (key v d : JsStr),
        persistInit (persistWrite store key v) key d = v) ∧
    (∀ (store : Store) (key d : JsStr), getItem store key = none →
        persistInit store key d = d) ∧
    (∀ (store : Store) (key d s : JsStr), getItem store key = some s →
        jsonParseStr s = none → persistInit store key d = d) := by
  refine ⟨?_, ?_, ?_⟩
  · intro store key v d
    have hget : getItem (persistWrite store key v) key = some (jsonStringifyStr v) := by
      simp [getItem, persistWrite, setItem, List.lookup]
    have hne : (jsonStringifyStr v).isEmpty = false := by
      simp [jsonStringifyStr]
    simp [persistInit, hget, hne, jsonParse_stringify v]
  · intro store key d h
    simp [persistInit, h]
  · intro store key d s hget hparse
    rcases hs : s with _ | ⟨c, cs⟩
    · simp [persistInit, hget, hs]
    · rw [hs] at hget hparse
      simp [persistInit, hget, hparse]

/-- Concrete instance of C7: the string `a"b` (which needs escaping)
round-trips through write and re-initialization under a key the source uses;
an empty store and a store holding unparsable content both yield the
default. -/
theorem claimC7_persistence_roundtrip_witness :
    persistInit (persistWrite [] (jstr "imageGenerator-prompt") (jstr "a\"b"))
        (jstr "imageGenerator-prompt") (jstr "") = jstr "a\"b" ∧
    persistInit [] (jstr "k") (jstr "d") = jstr "d" ∧
    persistInit [(jstr "k", jstr "oops")] (jstr "k") (jstr "d") = jstr "d" :=
  ⟨claimC7_persistence_roundtrip.1 [] (jstr "imageGenerator-prompt") (jstr "a\"b") (jstr ""),
   claimC7_persistence_roundtrip.2.1 [] (jstr "k") (jstr "d") rfl,
   claimC7_persistence_roundtrip.2.2 [(jstr "k", jstr "oops")] (jstr "k") (jstr "d")
     (jstr "oops") (by decide) (by decide)⟩
